import Mathlib

/-!
# Raspberry Weather Station — page navigation model (`pages.py`)

Shallow embedding of `src/pages.py`.

* Screen / OS / timing side effects are recorded as a list of `Effect`s,
  in the order the Python code issues them (stdout `print` logging is not
  an effect of the Screen and is not recorded).
* Each page class becomes a `PageKind`; a live page object is a
  `PageState`: its kind plus the mutable `current_page` index
  (`None` in Python = `none` here).  The child list of each class is the
  fixed `pagesOf` its kind, mirroring the `self.pages.append(...)` calls
  fixed at construction.
* Python floats are modelled as rationals; Python's `round` (banker's
  rounding, round half to even) is `pyRound`.
* `datetime.fromtimestamp(ts).strftime('%H:%M')` is modelled by
  `formatHHMM tzOffset ts`, where `tzOffset` is the host's fixed local
  UTC offset in seconds (DST transitions are abstracted away).
* An operation that would raise an uncaught Python exception (indexing
  `pages` out of range, calling a method on `None`) returns `none`.
-/

/-- A side effect issued by a page: the four `Screen` drawing primitives,
a `time.sleep` pause (milliseconds), and an `os.system` call.
For `Screen.display` the icon argument is recorded by the image resource
key it was loaded from (`icon[:2]`); for `display_bitmap`, by the fixed
resource name (`cog`). -/
inductive Effect where
  | display (outside inside icon : Option String)
  | displayTopBottom (top bottom : String)
  | displayBitmap (resource : String)
  | displayText (text : String)
  | sleep (ms : Nat)
  | osCommand (cmd : String)
  deriving DecidableEq, Repr

/-- A forecast extremum record, as used by `pages.py`: the code reads
`get_temperature(unit='celsius')['temp_min']` on `coldest`,
`['temp_max']` on `hottest`, and `get_reference_time()` (a unix
timestamp) on both. -/
structure ForecastRecord where
  temp_min : ℚ
  temp_max : ℚ
  reference_time : ℤ
  deriving DecidableEq, Repr

/-- The read-only `WeatherStation` attributes `pages.py` consumes.
`weather_hour` only matters as a presence flag (§ "if outside weather is
available"), so it is modelled as `Option Unit`.  Any attribute may be
`None` in Python, hence the `Option`s. -/
structure WeatherStation where
  weather_hour : Option Unit
  outside_temp : Option ℚ
  inside_temp : Option ℚ
  icon : Option String
  coldest : Option ForecastRecord
  hottest : Option ForecastRecord
  deriving DecidableEq

/-- Python's built-in `round` to an integer: nearest integer, ties to
even (banker's rounding).  Written on the numerator and denominator so
it computes by integer arithmetic: `f` is `⌊q⌋` (Euclidean division by
the positive denominator), and the fractional part `q - f` compares
with `1/2` exactly as `2 * (num - f * den)` compares with `den`. -/
def pyRound (q : ℚ) : ℤ :=
  let d : ℤ := (q.den : ℤ)
  let f : ℤ := q.num.ediv d
  let r2 : ℤ := 2 * (q.num - f * d)
  if r2 < d then f
  else if d < r2 then f + 1
  else if f % 2 = 0 then f else f + 1

/-- `str(round(x))` as applied to every numeric temperature. -/
def renderTemp (t : ℚ) : String := toString (pyRound t)

/-- Two-digit zero-padded decimal, as produced by `strftime` fields
`%H` and `%M` (their values are below 60, so two digits always). -/
def pad2 (n : Nat) : String :=
  String.mk [Char.ofNat (48 + n / 10), Char.ofNat (48 + n % 10)]

/-- `datetime.fromtimestamp(ts).strftime('%H:%M')`: convert the unix
timestamp to local time with the host's fixed UTC offset `tzOffset`
(seconds) and print hours and minutes, zero padded. -/
def formatHHMM (tzOffset ts : ℤ) : String :=
  let t := (ts + tzOffset) % 86400
  pad2 (t / 3600).toNat ++ ":" ++ pad2 (t % 3600 / 60).toNat

/-- One constructor per concrete `Page` subclass of `pages.py`. -/
inductive PageKind where
  | currentWeather
  | minMaxTemperature
  | minMaxHours
  | settings
  | shutdown
  | reboot
  | back
  deriving DecidableEq, Repr

/-- The `self.pages` list of each class, fixed at construction:
`MinMaxTemperaturePage.__init__` appends one `MinMaxHoursPage`;
`SettingsPage.__init__` appends `ShutdownPage`, `RebootPage`,
`BackPage` in that order; every other class leaves `pages` empty. -/
def pagesOf : PageKind → List PageKind
  | .minMaxTemperature => [.minMaxHours]
  | .settings => [.shutdown, .reboot, .back]
  | _ => []

/-- A live page object: its class and its mutable `current_page`
attribute (`None` = showing this page itself). -/
structure PageState where
  kind : PageKind
  current_page : Option Nat
  deriving DecidableEq, Repr

/-- `Page.__init__`: `current_page` starts as `None` for every class. -/
def PageState.init (k : PageKind) : PageState := ⟨k, none⟩

/-- `CurrentWeatherPage.update`.  If `weather_hour` is present the code
rounds `outside_temp` and slices `icon[:2]` unconditionally, so either
being `None` raises (`none` here); otherwise both arguments to
`Screen.display` are absent.  The inside temperature renders whenever
`inside_temp` is present. -/
def currentWeatherUpdate (ws : WeatherStation) : Option (List Effect) :=
  match ws.weather_hour with
  | some _ =>
      match ws.outside_temp, ws.icon with
      | some t, some ic =>
          some [Effect.display (some (renderTemp t)) (ws.inside_temp.map renderTemp)
                  (some (ic.take 2))]
      | _, _ => none
  | none => some [Effect.display none (ws.inside_temp.map renderTemp) none]

/-- The MAIN branch of `MinMaxTemperaturePage.update`: the availability
test is `self.weather_station.coldest is not None`; inside that branch
`hottest` is dereferenced unconditionally, so `coldest` present with
`hottest` absent raises (`none` here). -/
def minMaxTemperatureMainUpdate (ws : WeatherStation) : Option (List Effect) :=
  match ws.coldest with
  | some c =>
      match ws.hottest with
      | some h =>
          some [Effect.displayTopBottom ("Min:" ++ renderTemp c.temp_min)
                  ("Max:" ++ renderTemp h.temp_max)]
      | none => none
  | none => some [Effect.displayTopBottom "Min Max" "error"]

/-- `MinMaxHoursPage.update`: same availability test on `coldest` only,
then both reference times are formatted as `%H:%M` local time. -/
def minMaxHoursUpdate (tzOffset : ℤ) (ws : WeatherStation) : Option (List Effect) :=
  match ws.coldest with
  | some c =>
      match ws.hottest with
      | some h =>
          some [Effect.displayTopBottom (formatHHMM tzOffset c.reference_time)
                  (formatHHMM tzOffset h.reference_time)]
      | none => none
  | none => some [Effect.displayTopBottom "Hours" "error"]

/-- The loading animation shared verbatim by `ShutdownPage.click` and
`RebootPage.click`: four growing dot strings and a clearing `""`, with a
`time.sleep(0.2)` after each dot string. -/
def loadingAnimation : List Effect :=
  [Effect.displayText ".", Effect.sleep 200,
   Effect.displayText "..", Effect.sleep 200,
   Effect.displayText "...", Effect.sleep 200,
   Effect.displayText "....", Effect.sleep 200,
   Effect.displayText ""]

/-- `ShutdownPage.click`: the animation, then `os.system("sudo shutdown -h now")`. -/
def shutdownClickEffects : List Effect :=
  loadingAnimation ++ [Effect.osCommand "sudo shutdown -h now"]

/-- `RebootPage.click`: the animation, then `os.system("sudo reboot")`. -/
def rebootClickEffects : List Effect :=
  loadingAnimation ++ [Effect.osCommand "sudo reboot"]

/-- The effects of `click()` on a child page.  Children in this program
are always leaves (`pagesOf` puts only leaf kinds in a child list):
`ShutdownPage` and `RebootPage` animate and issue their host command;
`MinMaxHoursPage` and `BackPage` (and `CurrentWeatherPage`) only
`print`, which is not a Screen effect. -/
def leafClickEffects : PageKind → List Effect
  | .shutdown => shutdownClickEffects
  | .reboot => rebootClickEffects
  | _ => []

/-- `update()` of a leaf page (the only kinds that occur as children or
as stand-alone leaves).  The container kinds never reach this function
as children; their dispatch lives in `PageState.update`. -/
def leafUpdate (tzOffset : ℤ) (ws : WeatherStation) : PageKind → Option (List Effect)
  | .currentWeather => currentWeatherUpdate ws
  | .minMaxHours => minMaxHoursUpdate tzOffset ws
  | .shutdown => some [Effect.displayText "SHUTDOWN"]
  | .reboot => some [Effect.displayText "REBOOT"]
  | .back => some [Effect.displayText "BACK"]
  | .minMaxTemperature => none
  | .settings => none

/-- `update()` of a live page.  Containers show their own MAIN content
when `current_page` is `None` and otherwise delegate to
`self.pages[self.current_page]` (an out-of-range index raises, `none`).
`SettingsPage`'s MAIN content is the fixed cogwheel bitmap.  `update`
never assigns `current_page`, so the navigation state is unchanged. -/
def PageState.update (tzOffset : ℤ) (ws : WeatherStation) (p : PageState) :
    Option (List Effect) :=
  match p.kind with
  | .minMaxTemperature =>
      match p.current_page with
      | none => minMaxTemperatureMainUpdate ws
      | some i => (pagesOf .minMaxTemperature)[i]?.bind (leafUpdate tzOffset ws)
  | .settings =>
      match p.current_page with
      | none => some [Effect.displayBitmap "cog"]
      | some i => (pagesOf .settings)[i]?.bind (leafUpdate tzOffset ws)
  | k => leafUpdate tzOffset ws k

/-- The shared `click()` shape of the two container classes
(`MinMaxTemperaturePage.click`, `SettingsPage.click`): from MAIN select
child index 0 (no Screen effect); otherwise fetch
`self.pages[self.current_page]` (out of range raises, `none`), delegate
the click to it, then reset `current_page` to `None` exactly when
`type(subpage) is` the sentinel class — `MinMaxHoursPage` for the one,
`BackPage` for the other. -/
def containerClick (k sentinelKind : PageKind) (st : Option Nat) :
    Option (Option Nat × List Effect) :=
  match st with
  | none => some (some 0, [])
  | some i =>
      match (pagesOf k)[i]? with
      | none => none
      | some sub =>
          some ((if sub = sentinelKind then none else some i), leafClickEffects sub)

/-- `click()` of a live page.  Leaves never touch `current_page`. -/
def PageState.click (p : PageState) : Option (PageState × List Effect) :=
  match p.kind with
  | .minMaxTemperature =>
      (containerClick .minMaxTemperature .minMaxHours p.current_page).map
        (fun r => (⟨.minMaxTemperature, r.1⟩, r.2))
  | .settings =>
      (containerClick .settings .back p.current_page).map
        (fun r => (⟨.settings, r.1⟩, r.2))
  | k => some (p, leafClickEffects k)

/-- The navigation invariant: `current_page`, when present, indexes into
the page's child list. -/
def PageState.navOk (p : PageState) : Prop :=
  ∀ i, p.current_page = some i → i < (pagesOf p.kind).length

/-- One driver-issued operation: a periodic `update()` (with the data
and timezone visible at that moment) or an input `click()`. -/
inductive Op where
  | update (tzOffset : ℤ) (ws : WeatherStation)
  | click

/-- Run one operation on a live page, returning the new state. -/
def PageState.step (p : PageState) : Op → Option PageState
  | .update tz ws => (p.update tz ws).map (fun _ => p)
  | .click => p.click.map Prod.fst

/-- Run a sequence of operations from a state, collecting the rendered
output of each `update` in order. -/
def runOpsTrace (p : PageState) : List Op → Option (PageState × List (List Effect))
  | [] => some (p, [])
  | Op.update tz ws :: rest =>
      (p.update tz ws).bind fun e =>
        (runOpsTrace p rest).map fun r => (r.1, e :: r.2)
  | Op.click :: rest =>
      p.click.bind fun q => runOpsTrace q.1 rest

/-- The rendered min label always carries a colon at position 3, unlike
the placeholder text. -/
theorem min_label_colon (s : String) : ("Min:" ++ s).data.get? 3 = some ':' := rfl

/-- A rendered min label is never the placeholder top line. -/
theorem min_label_ne (s : String) : "Min:" ++ s ≠ "Min Max" := by
  intro h
  have h3 : ("Min:" ++ s).data.get? 3 = some ':' := min_label_colon s
  rw [h] at h3
  exact absurd h3 (by decide)

/-- A formatted clock string always carries a colon at position 2. -/
theorem formatHHMM_colon (tz t : ℤ) : (formatHHMM tz t).data.get? 2 = some ':' := rfl

/-- A formatted clock string is never the placeholder top line. -/
theorem formatHHMM_ne_hours (tz t : ℤ) : formatHHMM tz t ≠ "Hours" := by
  intro h
  have h2 : (formatHHMM tz t).data.get? 2 = some ':' := formatHHMM_colon tz t
  rw [h] at h2
  exact absurd h2 (by decide)

/-- Any successful `containerClick` leaves a `current_page` that indexes
into a nonempty child list. -/
theorem containerClick_navOk (k sk : PageKind) (st : Option Nat)
    (r : Option Nat × List Effect) (hne : pagesOf k ≠ [])
    (h : containerClick k sk st = some r) :
    ∀ i, r.1 = some i → i < (pagesOf k).length := by
  cases st with
  | none =>
      simp only [containerClick, Option.some.injEq] at h
      intro i hi
      rw [← h] at hi
      simp only [Option.some.injEq] at hi
      subst hi
      exact List.length_pos.mpr hne
  | some j =>
      rcases hg : (pagesOf k)[j]? with _ | sub
      · simp [containerClick, hg] at h
      · simp only [containerClick, hg, Option.some.injEq] at h
        intro i hi
        rw [← h] at hi
        have hj : j < (pagesOf k).length := by
          by_contra hout
          rw [List.getElem?_eq_none (Nat.le_of_not_lt hout)] at hg
          exact Option.noConfusion hg
        by_cases hs : sub = sk <;> simp only [hs, ite_true, ite_false] at hi
        · exact Option.noConfusion hi
        · simp only [Option.some.injEq] at hi
          subst hi
          exact hj

/-- A successful `click` keeps the page's kind and the navigation
invariant. -/
theorem click_navOk (k : PageKind) (st : Option Nat) (q : PageState) (e : List Effect)
    (h : PageState.click ⟨k, st⟩ = some (q, e)) :
    q.kind = k ∧ (PageState.navOk ⟨k, st⟩ → q.navOk) := by
  cases k with
  | minMaxTemperature =>
      rcases hc : containerClick PageKind.minMaxTemperature PageKind.minMaxHours st
        with _ | r
      · simp [PageState.click, hc] at h
      · simp only [PageState.click, hc, Option.map_some', Option.some.injEq,
          Prod.mk.injEq] at h
        obtain ⟨rfl, -⟩ := h
        exact ⟨rfl, fun _ => containerClick_navOk PageKind.minMaxTemperature
          PageKind.minMaxHours st r (by decide) hc⟩
  | settings =>
      rcases hc : containerClick PageKind.settings PageKind.back st with _ | r
      · simp [PageState.click, hc] at h
      · simp only [PageState.click, hc, Option.map_some', Option.some.injEq,
          Prod.mk.injEq] at h
        obtain ⟨rfl, -⟩ := h
        exact ⟨rfl, fun _ => containerClick_navOk PageKind.settings
          PageKind.back st r (by decide) hc⟩
  | currentWeather =>
      simp only [PageState.click, Option.some.injEq, Prod.mk.injEq] at h
      obtain ⟨rfl, -⟩ := h
      exact ⟨rfl, fun hp => hp⟩
  | minMaxHours =>
      simp only [PageState.click, Option.some.injEq, Prod.mk.injEq] at h
      obtain ⟨rfl, -⟩ := h
      exact ⟨rfl, fun hp => hp⟩
  | shutdown =>
      simp only [PageState.click, Option.some.injEq, Prod.mk.injEq] at h
      obtain ⟨rfl, -⟩ := h
      exact ⟨rfl, fun hp => hp⟩
  | reboot =>
      simp only [PageState.click, Option.some.injEq, Prod.mk.injEq] at h
      obtain ⟨rfl, -⟩ := h
      exact ⟨rfl, fun hp => hp⟩
  | back =>
      simp only [PageState.click, Option.some.injEq, Prod.mk.injEq] at h
      obtain ⟨rfl, -⟩ := h
      exact ⟨rfl, fun hp => hp⟩

/-- Running any operation sequence preserves the navigation invariant
and the page's kind. -/
theorem runOpsTrace_navOk (ops : List Op) (p q : PageState) (es : List (List Effect))
    (hp : p.navOk) (h : runOpsTrace p ops = some (q, es)) :
    q.navOk ∧ q.kind = p.kind := by
  induction ops generalizing p es with
  | nil =>
      simp only [runOpsTrace, Option.some.injEq, Prod.mk.injEq] at h
      obtain ⟨rfl, -⟩ := h
      exact ⟨hp, rfl⟩
  | cons op rest ih =>
      cases op with
      | update tz ws =>
          rcases hu : PageState.update tz ws p with _ | e
          · simp [runOpsTrace, hu] at h
          · rcases hr : runOpsTrace p rest with _ | r
            · simp [runOpsTrace, hu, hr] at h
            · simp only [runOpsTrace, hu, hr, Option.some_bind, Option.map_some',
                Option.some.injEq, Prod.mk.injEq] at h
              obtain ⟨rfl, -⟩ := h
              exact ih p r.2 hp (by rw [hr])
      | click =>
          rcases hcl : PageState.click p with _ | c
          · simp [runOpsTrace, hcl] at h
          · simp only [runOpsTrace, hcl, Option.some_bind] at h
            obtain ⟨p1, p2⟩ := p
            obtain ⟨hk, hnav⟩ := click_navOk p1 p2 c.1 c.2 (by rw [hcl])
            obtain ⟨hq, hkk⟩ := ih c.1 es (hnav hp) h
            exact ⟨hq, by rw [hkk, hk]⟩

/-- Claim C1: for `SettingsPage`, a `click()` from MAIN (`current_page`
absent) selects child index 0, and index 0 of its child list is the
`ShutdownPage`; a `click()` while child `i` is active delegates the
click to that child (its effects are the child's click effects) and
resets `current_page` to absent exactly when the child is the
`BackPage`, which is exactly index 2 — so a click delegated to Shutdown
or Reboot leaves `current_page` unchanged. -/
theorem settings_click_correct (i : Nat) (h : i < (pagesOf PageKind.settings).length) :
    PageState.click ⟨PageKind.settings, none⟩ =
      some (⟨PageKind.settings, some 0⟩, []) ∧
    (pagesOf PageKind.settings)[0]? = some PageKind.shutdown ∧
    PageState.click ⟨PageKind.settings, some i⟩ =
      some (⟨PageKind.settings,
              if (pagesOf PageKind.settings)[i] = PageKind.back then none else some i⟩,
            leafClickEffects (pagesOf PageKind.settings)[i]) ∧
    ((pagesOf PageKind.settings)[i] = PageKind.back ↔ i = 2) := by
  have h3 : i < 3 := by simpa [pagesOf] using h
  refine ⟨rfl, rfl, ?_, ?_⟩ <;> interval_cases i <;> first | rfl | simp [pagesOf]

/-- Witness for C1 at the Back child (index 2): the delegated click
resets `current_page` to absent. -/
theorem settings_click_correct_witness :
    PageState.click ⟨PageKind.settings, none⟩ =
      some (⟨PageKind.settings, some 0⟩, []) ∧
    (pagesOf PageKind.settings)[0]? = some PageKind.shutdown ∧
    PageState.click ⟨PageKind.settings, some 2⟩ =
      some (⟨PageKind.settings,
              if (pagesOf PageKind.settings)[2] = PageKind.back then none else some 2⟩,
            leafClickEffects (pagesOf PageKind.settings)[2]) ∧
    ((pagesOf PageKind.settings)[2] = PageKind.back ↔ 2 = 2) :=
  settings_click_correct 2 (by decide)

/-- Claim C2: a freshly constructed `MinMaxTemperaturePage` is in MAIN;
its first `click()` selects child index 0, which is its sole
`MinMaxHoursPage` child; a second `click()` is delegated to that leaf
(whose click has no Screen effect) and returns the state to MAIN, so
click–click is a round trip on the navigation state. -/
theorem minMaxTemperature_click_click_roundtrip :
    (PageState.init PageKind.minMaxTemperature).current_page = none ∧
    PageState.click (PageState.init PageKind.minMaxTemperature) =
      some (⟨PageKind.minMaxTemperature, some 0⟩, []) ∧
    (pagesOf PageKind.minMaxTemperature)[0]? = some PageKind.minMaxHours ∧
    PageState.click ⟨PageKind.minMaxTemperature, some 0⟩ =
      some (⟨PageKind.minMaxTemperature, none⟩, leafClickEffects PageKind.minMaxHours) ∧
    leafClickEffects PageKind.minMaxHours = [] :=
  ⟨rfl, rfl, rfl, rfl, rfl⟩

/-- Claim C3: every page (in particular the two containers,
`MinMaxTemperaturePage` and `SettingsPage`) starts with `current_page`
absent — the MAIN state — immediately after construction. -/
theorem pages_start_in_main (k : PageKind) :
    (PageState.init k).current_page = none := rfl

/-- Claim C4: the child list of a page is a fixed function of its kind,
and for every page kind and every sequence of `update`/`click`
operations from construction, any state the run reaches satisfies the
invariant that `current_page`, when present, is a valid index into the
child list (and the kind, hence the child list, never changes). -/
theorem nav_invariant (k : PageKind) (ops : List Op) (q : PageState)
    (es : List (List Effect))
    (h : runOpsTrace (PageState.init k) ops = some (q, es)) :
    (PageState.init k).navOk ∧ q.navOk ∧ q.kind = k := by
  have h0 : (PageState.init k).navOk := by
    intro i hi
    exact absurd hi (by simp [PageState.init])
  obtain ⟨hq, hk⟩ := runOpsTrace_navOk ops (PageState.init k) q es h0 h
  exact ⟨h0, hq, hk⟩

/-- Witness for C4: one click on a fresh `SettingsPage` reaches
`current_page = some 0`, which satisfies the invariant. -/
theorem nav_invariant_witness :
    (PageState.init PageKind.settings).navOk ∧
    PageState.navOk ⟨PageKind.settings, some 0⟩ ∧
    (⟨PageKind.settings, some 0⟩ : PageState).kind = PageKind.settings :=
  nav_invariant PageKind.settings [Op.click] ⟨PageKind.settings, some 0⟩ [] rfl

/-- Claim C5: `CurrentWeatherPage.update` with outside data unavailable
passes absent outside text and absent icon to `Screen.display` while
the inside text still renders from `inside_temp` when present; with
outside data available the outside temperature renders as the text of
its rounded value and the icon resource is the first two characters of
the icon code — concretely `21.6` renders `"22"` and `"10d"` resolves
to resource `"10"`. -/
theorem currentWeather_update_correct (ws1 ws2 : WeatherStation) (t : ℚ) (ic : String)
    (h1 : ws1.weather_hour = none) (h2 : ws2.weather_hour = some ())
    (h3 : ws2.outside_temp = some t) (h4 : ws2.icon = some ic) :
    currentWeatherUpdate ws1 =
      some [Effect.display none (ws1.inside_temp.map renderTemp) none] ∧
    currentWeatherUpdate ws2 =
      some [Effect.display (some (renderTemp t)) (ws2.inside_temp.map renderTemp)
              (some (ic.take 2))] ∧
    renderTemp (mkRat 216 10) = "22" ∧ String.take "10d" 2 = "10" := by
  refine ⟨?_, ?_, by decide, by decide⟩
  · simp [currentWeatherUpdate, h1]
  · simp [currentWeatherUpdate, h2, h3, h4]

/-- Witness for C5: a station with outside data absent but inside
`20.3`, and one with outside `21.6`, inside `20.3` and icon `"10d"`. -/
theorem currentWeather_update_correct_witness :
    currentWeatherUpdate ⟨none, none, some (mkRat 203 10), none, none, none⟩ =
      some [Effect.display none ((some (mkRat 203 10)).map renderTemp) none] ∧
    currentWeatherUpdate
        ⟨some (), some (mkRat 216 10), some (mkRat 203 10), some "10d", none, none⟩ =
      some [Effect.display (some (renderTemp (mkRat 216 10)))
              ((some (mkRat 203 10)).map renderTemp) (some (String.take "10d" 2))] ∧
    renderTemp (mkRat 216 10) = "22" ∧ String.take "10d" 2 = "10" :=
  currentWeather_update_correct ⟨none, none, some (mkRat 203 10), none, none, none⟩
    ⟨some (), some (mkRat 216 10), some (mkRat 203 10), some "10d", none, none⟩
    (mkRat 216 10) "10d" rfl rfl rfl rfl

/-- Claim C6: `MinMaxTemperaturePage.update` in MAIN renders
`"Min:<rounded coldest temp_min>"` over `"Max:<rounded hottest
temp_max>"` via `display_top_bottom` when forecast extrema are
available, and `("Min Max", "error")` when no forecast is available;
concretely coldest `3.2` and hottest `18.7` render `("Min:3", "Max:19")`. -/
theorem minMaxTemperature_update_main_correct (tz : ℤ) (ws1 ws2 : WeatherStation)
    (c r : ForecastRecord) (hc : ws1.coldest = some c) (hr : ws1.hottest = some r)
    (h2 : ws2.coldest = none) :
    PageState.update tz ws1 ⟨PageKind.minMaxTemperature, none⟩ =
      some [Effect.displayTopBottom ("Min:" ++ renderTemp c.temp_min)
              ("Max:" ++ renderTemp r.temp_max)] ∧
    PageState.update tz ws2 ⟨PageKind.minMaxTemperature, none⟩ =
      some [Effect.displayTopBottom "Min Max" "error"] ∧
    "Min:" ++ renderTemp (mkRat 32 10) = "Min:3" ∧
    "Max:" ++ renderTemp (mkRat 187 10) = "Max:19" := by
  refine ⟨?_, ?_, by decide, by decide⟩
  · simp [PageState.update, minMaxTemperatureMainUpdate, hc, hr]
  · simp [PageState.update, minMaxTemperatureMainUpdate, h2]

/-- Witness for C6: coldest `3.2` at `06:15`, hottest `18.7` at
`15:42`, against a station with no forecast. -/
theorem minMaxTemperature_update_main_correct_witness :
    PageState.update 0
        ⟨none, none, none, none, some ⟨mkRat 32 10, mkRat 32 10, 22500⟩,
          some ⟨mkRat 187 10, mkRat 187 10, 56520⟩⟩
        ⟨PageKind.minMaxTemperature, none⟩ =
      some [Effect.displayTopBottom ("Min:" ++ renderTemp (mkRat 32 10))
              ("Max:" ++ renderTemp (mkRat 187 10))] ∧
    PageState.update 0 ⟨none, none, none, none, none, none⟩
        ⟨PageKind.minMaxTemperature, none⟩ =
      some [Effect.displayTopBottom "Min Max" "error"] ∧
    "Min:" ++ renderTemp (mkRat 32 10) = "Min:3" ∧
    "Max:" ++ renderTemp (mkRat 187 10) = "Max:19" :=
  minMaxTemperature_update_main_correct 0
    ⟨none, none, none, none, some ⟨mkRat 32 10, mkRat 32 10, 22500⟩,
      some ⟨mkRat 187 10, mkRat 187 10, 56520⟩⟩
    ⟨none, none, none, none, none, none⟩
    ⟨mkRat 32 10, mkRat 32 10, 22500⟩ ⟨mkRat 187 10, mkRat 187 10, 56520⟩ rfl rfl rfl

/-- Claim C7: `MinMaxHoursPage.update` with forecast extrema available
formats each extremum's reference timestamp as `HH:MM` local time and
renders the pair via `display_top_bottom`; with no forecast it renders
`("Hours", "error")`; concretely timestamps at `06:15` and `15:42`
local render `("06:15", "15:42")`. -/
theorem minMaxHours_update_correct (tz : ℤ) (ws1 ws2 : WeatherStation)
    (c r : ForecastRecord) (hc : ws1.coldest = some c) (hr : ws1.hottest = some r)
    (h2 : ws2.coldest = none) :
    minMaxHoursUpdate tz ws1 =
      some [Effect.displayTopBottom (formatHHMM tz c.reference_time)
              (formatHHMM tz r.reference_time)] ∧
    minMaxHoursUpdate tz ws2 = some [Effect.displayTopBottom "Hours" "error"] ∧
    formatHHMM 0 22500 = "06:15" ∧ formatHHMM 0 56520 = "15:42" := by
  refine ⟨?_, ?_, by decide, by decide⟩
  · simp [minMaxHoursUpdate, hc, hr]
  · simp [minMaxHoursUpdate, h2]

/-- Witness for C7: reference times 22500 (= 06:15) and 56520
(= 15:42) at UTC offset 0. -/
theorem minMaxHours_update_correct_witness :
    minMaxHoursUpdate 0
        ⟨none, none, none, none, some ⟨mkRat 32 10, mkRat 32 10, 22500⟩,
          some ⟨mkRat 187 10, mkRat 187 10, 56520⟩⟩ =
      some [Effect.displayTopBottom (formatHHMM 0 22500) (formatHHMM 0 56520)] ∧
    minMaxHoursUpdate 0 ⟨none, none, none, none, none, none⟩ =
      some [Effect.displayTopBottom "Hours" "error"] ∧
    formatHHMM 0 22500 = "06:15" ∧ formatHHMM 0 56520 = "15:42" :=
  minMaxHours_update_correct 0
    ⟨none, none, none, none, some ⟨mkRat 32 10, mkRat 32 10, 22500⟩,
      some ⟨mkRat 187 10, mkRat 187 10, 56520⟩⟩
    ⟨none, none, none, none, none, none⟩
    ⟨mkRat 32 10, mkRat 32 10, 22500⟩ ⟨mkRat 187 10, mkRat 187 10, 56520⟩ rfl rfl rfl

/-- Claim C8: clicking `ShutdownPage` or `RebootPage` (whatever the
navigation state, which they never touch) issues exactly the dot
animation `"."`, `".."`, `"..."`, `"...."` with a fixed 200 ms pause
after each, then the clearing `display_text("")`, and only after all of
that the host power command; the two sequences are identical except for
that final command. -/
theorem shutdown_reboot_click_correct :
    (∀ st : Option Nat, PageState.click ⟨PageKind.shutdown, st⟩ =
        some (⟨PageKind.shutdown, st⟩, shutdownClickEffects)) ∧
    (∀ st : Option Nat, PageState.click ⟨PageKind.reboot, st⟩ =
        some (⟨PageKind.reboot, st⟩, rebootClickEffects)) ∧
    shutdownClickEffects =
      [Effect.displayText ".", Effect.sleep 200,
       Effect.displayText "..", Effect.sleep 200,
       Effect.displayText "...", Effect.sleep 200,
       Effect.displayText "....", Effect.sleep 200,
       Effect.displayText "", Effect.osCommand "sudo shutdown -h now"] ∧
    rebootClickEffects =
      [Effect.displayText ".", Effect.sleep 200,
       Effect.displayText "..", Effect.sleep 200,
       Effect.displayText "...", Effect.sleep 200,
       Effect.displayText "....", Effect.sleep 200,
       Effect.displayText "", Effect.osCommand "sudo reboot"] ∧
    shutdownClickEffects.dropLast = rebootClickEffects.dropLast :=
  ⟨fun _ => rfl, fun _ => rfl, by decide, by decide, by decide⟩

/-- Claim C9: `update()` never mutates the page's navigation state and
its output is a function of the state and the data, so repeating
`update` with no intervening click and no data change yields the same
rendered output every time: `n` updates produce `n` copies of the one
output and leave the state unchanged. -/
theorem update_deterministic_idempotent (tz : ℤ) (ws : WeatherStation)
    (p : PageState) (n : Nat) (e : List Effect) (h : p.update tz ws = some e) :
    runOpsTrace p (List.replicate n (Op.update tz ws)) =
      some (p, List.replicate n e) := by
  induction n with
  | zero => simp [runOpsTrace]
  | succ n ih => simp [List.replicate_succ, runOpsTrace, h, ih]

/-- Witness for C9: two updates of a fresh `SettingsPage` both render
the cogwheel bitmap. -/
theorem update_deterministic_idempotent_witness :
    runOpsTrace ⟨PageKind.settings, none⟩
        (List.replicate 2 (Op.update 0 ⟨none, none, none, none, none, none⟩)) =
      some (⟨PageKind.settings, none⟩,
            List.replicate 2 [Effect.displayBitmap "cog"]) :=
  update_deterministic_idempotent 0 ⟨none, none, none, none, none, none⟩
    ⟨PageKind.settings, none⟩ 2 [Effect.displayBitmap "cog"] rfl

/-- Claim C10 (implicit): forecast availability is keyed solely on
`coldest`.  When `coldest` is present but `hottest` is absent, both
`MinMaxTemperaturePage.update` in MAIN and `MinMaxHoursPage.update`
dereference `hottest` and fail (uncaught exception, `none`) instead of
taking the placeholder branch; and each placeholder output
(`("Min Max", "error")` / `("Hours", "error")`) is produced exactly
when `coldest` itself is absent. -/
theorem forecast_availability_keyed_on_coldest (tz : ℤ) (ws : WeatherStation)
    (c : ForecastRecord) (hc : ws.coldest = some c) (hh : ws.hottest = none) :
    PageState.update tz ws ⟨PageKind.minMaxTemperature, none⟩ = none ∧
    minMaxHoursUpdate tz ws = none ∧
    (∀ (tz2 : ℤ) (ws2 : WeatherStation),
      (PageState.update tz2 ws2 ⟨PageKind.minMaxTemperature, none⟩ =
          some [Effect.displayTopBottom "Min Max" "error"] ∨
        minMaxHoursUpdate tz2 ws2 =
          some [Effect.displayTopBottom "Hours" "error"]) ↔
      ws2.coldest = none) := by
  refine ⟨?_, ?_, ?_⟩
  · simp [PageState.update, minMaxTemperatureMainUpdate, hc, hh]
  · simp [minMaxHoursUpdate, hc, hh]
  · intro tz2 ws2
    constructor
    · rintro (h | h)
      · rcases h2 : ws2.coldest with _ | c2
        · rfl
        · rcases h3 : ws2.hottest with _ | r2
          · simp [PageState.update, minMaxTemperatureMainUpdate, h2, h3] at h
          · simp [PageState.update, minMaxTemperatureMainUpdate, h2, h3] at h
            exact absurd h.1 (min_label_ne _)
      · rcases h2 : ws2.coldest with _ | c2
        · rfl
        · rcases h3 : ws2.hottest with _ | r2
          · simp [minMaxHoursUpdate, h2, h3] at h
          · simp [minMaxHoursUpdate, h2, h3] at h
            exact absurd h.1 (formatHHMM_ne_hours _ _)
    · intro h
      exact Or.inl (by simp [PageState.update, minMaxTemperatureMainUpdate, h])

/-- Witness for C10: a station whose `coldest` is present but whose
`hottest` is absent makes both updates fail rather than degrade. -/
theorem forecast_availability_keyed_on_coldest_witness :
    PageState.update 0 ⟨none, none, none, none, some ⟨0, 0, 0⟩, none⟩
        ⟨PageKind.minMaxTemperature, none⟩ = none ∧
    minMaxHoursUpdate 0 ⟨none, none, none, none, some ⟨0, 0, 0⟩, none⟩ = none ∧
    (∀ (tz2 : ℤ) (ws2 : WeatherStation),
      (PageState.update tz2 ws2 ⟨PageKind.minMaxTemperature, none⟩ =
          some [Effect.displayTopBottom "Min Max" "error"] ∨
        minMaxHoursUpdate tz2 ws2 =
          some [Effect.displayTopBottom "Hours" "error"]) ↔
      ws2.coldest = none) :=
  forecast_availability_keyed_on_coldest 0
    ⟨none, none, none, none, some ⟨0, 0, 0⟩, none⟩ ⟨0, 0, 0⟩ rfl rfl
